import Mathlib

/-!
Verification of the tunnel-manager core of the `ha-addon` repository
(`src/hle/backend/tunnel_manager.py` and `src/hle/backend/models.py`),
shallowly embedded in Lean 4.

Modelling conventions:
* The persisted Config Store (`/data/tunnels.json`) is an association list
  `List (String × TunnelConfig)`; `_load_all`/`_save_all` read and write it
  whole, exactly as the Python does.
* The in-memory registries (`_processes`, `_connected`, `_user_stopped`)
  are part of a single `MgrState` record, together with a `nextPid` counter
  that models the operating system's allocation of fresh pids to spawned
  children.
* A process handle keeps only what the manager observes: its pid and
  whether it is still running (`proc.returncode is None`).
* `asyncio.create_task(_detect_subdomain ...)` calls are modelled as a list
  of `PollerStart` records returned by each operation, so "no poller task
  was started" is the statement that this list is empty.
* External effects are oracles passed in as arguments: the last non-empty
  log line of a tunnel, and the relay responses observed by the poller on
  each tick.
* `models.py` does not declare the field `upstream_basic_auth` on
  `TunnelConfig` / `AddTunnelRequest`, although `tunnel_manager.py`
  dereferences it (`cfg.upstream_basic_auth` at line 56 inside `_spawn`,
  `req.upstream_basic_auth` at line 149 inside `add_tunnel`); a pydantic
  model raises `AttributeError` on access to an undeclared field.  The
  embedding is literal: the structures carry exactly the declared fields,
  `spawn_attempt` fails with `attributeError` on every call (line 56 runs
  before `create_subprocess_exec`), and `add_tunnel` fails with
  `attributeError` before touching any state (line 149 runs before the
  spawn and the store write).  `spawnCmd` keeps the argv logic of lines
  51-57 as a function of the value the line-56 access would yield, so the
  flag layout can still be stated.
-/

namespace HaAddon

/-- Python truthiness of an optional string: `None` and `""` are falsy. -/
def truthyOpt : Option String → Bool
  | none => false
  | some s => s ≠ ""

/-- The `a or b` on optional strings, with Python truthiness. -/
def pyOr (a b : Option String) : Option String :=
  if truthyOpt a then a else b

/-- The `x or None` on an optional string: normalises the empty string to `none`
(`req.api_key or None` in `add_tunnel`/`update_tunnel`). -/
def orNone (a : Option String) : Option String :=
  if truthyOpt a then a else none

/-- The `auth_mode`: `Literal["sso", "none"]` in `models.py`. -/
inductive AuthMode where
  | sso
  | noAuth
  deriving DecidableEq, Repr

/-- A child-process handle as the manager observes it: the pid and whether
`proc.returncode is None`.  The concrete exit code is irrelevant to the
manager (`_is_running` only checks `returncode is None`), so it is
abstracted to the `running` flag. -/
structure Proc where
  pid : Nat
  running : Bool
  deriving DecidableEq, Repr

/-- The `TunnelConfig` (`models.py` lines 10-19), with exactly the fields
`models.py` declares.  `tunnel_manager.py` also dereferences
`cfg.upstream_basic_auth` (line 56), a field that does not exist here:
that access raises `AttributeError` (see `spawn_attempt`). -/
structure TunnelConfig where
  id : String
  service_url : String
  label : String
  name : Option String := none
  auth_mode : AuthMode := .sso
  verify_ssl : Bool := false
  websocket_enabled : Bool := true
  api_key : Option String := none
  subdomain : Option String := none
  deriving DecidableEq, Repr

/-- The literal field list of `class TunnelConfig` in `models.py`
(lines 10-19), in declaration order. -/
def modelsTunnelConfigFields : List String :=
  ["id", "service_url", "label", "name", "auth_mode",
   "verify_ssl", "websocket_enabled", "api_key", "subdomain"]

/-- The `AddTunnelRequest` (`models.py` lines 29-36), with exactly the
fields `models.py` declares.  `add_tunnel` (line 149) also dereferences
`req.upstream_basic_auth`, a field that does not exist here: that access
raises `AttributeError` (see `add_tunnel`). -/
structure AddTunnelRequest where
  service_url : String
  label : String
  name : Option String := none
  auth_mode : AuthMode := .sso
  verify_ssl : Bool := false
  websocket_enabled : Bool := true
  api_key : Option String := none
  deriving DecidableEq, Repr

/-- The `UpdateTunnelRequest` (`models.py` lines 39-46): every field optional,
`none` meaning "field omitted from the partial update".  For `api_key`
the Python distinguishes omitted / explicitly-null / string through
`model_fields_set`, so it is embedded as `Option (Option String)`:
`none` = omitted, `some v` = explicitly provided with value `v`.
`models.py` declares no `upstream_basic_auth` field here, so the
`"upstream_basic_auth" in req.model_fields_set` branch of `update_tunnel`
(lines 171-172) can never fire and is not represented. -/
structure UpdateTunnelRequest where
  service_url : Option String := none
  label : Option String := none
  name : Option String := none
  auth_mode : Option AuthMode := none
  verify_ssl : Option Bool := none
  websocket_enabled : Option Bool := none
  api_key : Option (Option String) := none
  deriving DecidableEq, Repr

/-- Presented tunnel state (`TunnelStatus.state` in `models.py`). -/
inductive TState where
  | STOPPED
  | CONNECTING
  | CONNECTED
  | FAILED
  deriving DecidableEq, Repr

/-- The `TunnelStatus` (`models.py` lines 22-26): the config fields plus the
derived presentation fields. -/
structure TunnelStatus extends TunnelConfig where
  state : TState := .STOPPED
  error : Option String := none
  public_url : Option String := none
  procPid : Option Nat := none
  deriving DecidableEq, Repr

/-- Association-list update with Python-dict semantics: replace the value
under an existing key in place, otherwise append the binding. -/
def dictSet : List (String × α) → String → α → List (String × α)
  | [], k, v => [(k, v)]
  | (k', v') :: rest, k, v =>
      if k' = k then (k', v) :: rest else (k', v') :: dictSet rest k v

/-- Association-list removal (`dict.pop(key, None)`).  Python dict keys
are unique, so dropping every binding of the key is the same removal. -/
def dictPop (m : List (String × α)) (k : String) : List (String × α) :=
  m.filter (fun p => p.1 ≠ k)

/-- The `set.add`: insert an element if absent. -/
def setAdd (s : List String) (x : String) : List String :=
  if s.contains x then s else x :: s

/-- The `set.discard`: remove all occurrences of an element. -/
def setDiscard (s : List String) (x : String) : List String :=
  s.filter (fun y => y ≠ x)

/-- The manager's full state: the persisted Config Store
(`/data/tunnels.json`, already decoded), the `_processes` registry, and
the `_connected` and `_user_stopped` session sets. -/
structure MgrState where
  store : List (String × TunnelConfig)
  procs : List (String × Proc)
  connected : List String
  userStopped : List String
  deriving DecidableEq, Repr

/-- The `_is_running(proc)`: the handle exists and has not exited. -/
def is_running : Option Proc → Bool
  | none => false
  | some p => p.running

/-- A recorded `asyncio.create_task(_detect_subdomain(id, service_url, label))`
call. -/
structure PollerStart where
  tunnelId : String
  service_url : String
  label : String
  deriving DecidableEq, Repr

/-- Exception kinds the mutating operations propagate: `KeyError` for an
unknown id (the spec's `NotFoundError`), and the `AttributeError` raised
by accessing the `upstream_basic_auth` field that `models.py` does not
declare (lines 56 and 149 of `tunnel_manager.py`). -/
inductive MgrErr where
  | notFound
  | attributeError
  deriving DecidableEq, Repr

-- ---------------------------------------------------------------------------
-- Status derivation (`_make_status`, `get_tunnel`, `list_tunnels`)
-- ---------------------------------------------------------------------------

/-- The `_make_status(tunnel_id, cfg)` (`tunnel_manager.py` lines 272-295).
`lastLog` is the `_last_error_line` oracle: the last non-empty line of the
tunnel's log file, if any. -/
def make_status (lastLog : String → Option String) (st : MgrState)
    (tunnel_id : String) (cfg : TunnelConfig) : TunnelStatus :=
  let proc := st.procs.lookup tunnel_id
  let running := is_running proc
  let stErr : TState × Option String :=
    if ¬ running then
      if st.userStopped.contains tunnel_id then (.STOPPED, none)
      else (.FAILED, lastLog tunnel_id)
    else if st.connected.contains tunnel_id then (.CONNECTED, none)
    else (.CONNECTING, none)
  { cfg with
    state := stErr.1
    error := stErr.2
    public_url := cfg.subdomain.map (fun s => "https://" ++ s ++ ".hle.world")
    procPid := if running then proc.map Proc.pid else none }

/-- The `get_tunnel(tunnel_id)` (lines 251-253). -/
def get_tunnel (lastLog : String → Option String) (st : MgrState)
    (tunnel_id : String) : Option TunnelStatus :=
  (st.store.lookup tunnel_id).map (make_status lastLog st tunnel_id)

/-- The `list_tunnels()` (lines 247-248). -/
def list_tunnels (lastLog : String → Option String) (st : MgrState) :
    List TunnelStatus :=
  st.store.map (fun p => make_status lastLog st p.1 p.2)

-- ---------------------------------------------------------------------------
-- Process launcher (`_spawn`)
-- ---------------------------------------------------------------------------

/-- The argument vector of `_spawn` (`tunnel_manager.py` lines 51-57) as a
function of the config and of the value the line-56 access
`cfg.upstream_basic_auth` would yield if the field existed — in the
literal program that access raises `AttributeError` instead (see
`spawn_attempt`), so this layout is never completed at runtime: base
command from `service_url`, `label` and `auth_mode`, conditional
`--verify-ssl` and `--no-websocket` flags, and `--upstream-basic-auth`
with the credential exactly when it is (truthily) set. -/
def spawnCmd (cfg : TunnelConfig) (upstream_basic_auth : Option String) :
    List String :=
  let base := ["hle", "expose", "--service", cfg.service_url,
               "--label", cfg.label, "--auth",
               match cfg.auth_mode with | .sso => "sso" | .noAuth => "none"]
  let c1 := base ++ (if cfg.verify_ssl then ["--verify-ssl"] else [])
  let c2 := c1 ++ (if ¬ cfg.websocket_enabled then ["--no-websocket"] else [])
  c2 ++ (if truthyOpt upstream_basic_auth then
           ["--upstream-basic-auth", upstream_basic_auth.getD ""] else [])

/-- The outcome of `await _spawn(cfg)` (lines 48-67) for the literal
source: building the argument vector reaches `if cfg.upstream_basic_auth:`
(line 56), and `models.py` declares no such field on `TunnelConfig`, so
every call raises `AttributeError` before `create_subprocess_exec`
(line 61) is reached — no process is ever created by this program. -/
def spawn_attempt (_cfg : TunnelConfig) : Except MgrErr Proc :=
  .error .attributeError

/-- Graceful-then-forced termination of a handle
(`proc.terminate(); await wait_for(proc.wait(), 5.0)` escalating to
`proc.kill()`): either way the process ends up not running. -/
def stopProc (p : Proc) : Proc :=
  { p with running := false }

/-- Terminate the registered handle for `tid` if it is running, leaving it
in the registry (as `update_tunnel` and `stop_tunnel` do — only
`remove_tunnel` pops it). -/
def terminateInRegistry (st : MgrState) (tid : String) : MgrState :=
  match st.procs.lookup tid with
  | some p =>
      if p.running then { st with procs := dictSet st.procs tid (stopProc p) }
      else st
  | none => st

-- ---------------------------------------------------------------------------
-- Orchestrator operations
-- ---------------------------------------------------------------------------

/-- The `add_tunnel(req)` (`tunnel_manager.py` lines 138-156) for the
literal source.  Line 139 reads the store and line 141 draws a fresh id
(both without effect), but the keyword argument
`upstream_basic_auth=req.upstream_basic_auth or None` (line 149) reads a
field `models.py` does not declare on `AddTunnelRequest`: every call
raises `AttributeError` while constructing the config — before `_spawn`
(line 151), before `tunnels[cfg.id] = cfg` and `_save_all` (lines
153-154), and before the poller task (line 155).  The exception
propagates with the store, the registry, the session sets untouched and
no poller started; no config is ever returned or persisted. -/
def add_tunnel (_req : AddTunnelRequest) (st : MgrState) :
    Except MgrErr TunnelConfig × MgrState × List PollerStart :=
  (.error .attributeError, st, [])

/-- The config after applying the fields explicitly present in the partial
update (`update_tunnel` lines 166-181): `changed = model_dump(exclude_none=True)`
plus the `model_fields_set` special case for `api_key`, then `setattr` per
field. -/
def applyUpdate (req : UpdateTunnelRequest) (cfg : TunnelConfig) : TunnelConfig :=
  { cfg with
    service_url := req.service_url.getD cfg.service_url
    label := req.label.getD cfg.label
    name := match req.name with | some n => some n | none => cfg.name
    auth_mode := req.auth_mode.getD cfg.auth_mode
    verify_ssl := req.verify_ssl.getD cfg.verify_ssl
    websocket_enabled := req.websocket_enabled.getD cfg.websocket_enabled
    api_key := match req.api_key with
               | some v => orNone v
               | none => cfg.api_key }

/-- The `label_or_url_changed` (lines 175-178): a provided `label` or
`service_url` that differs from the stored value. -/
def labelOrUrlChanged (req : UpdateTunnelRequest) (cfg : TunnelConfig) : Bool :=
  (match req.label with | some l => l ≠ cfg.label | none => false) ||
  (match req.service_url with | some u => u ≠ cfg.service_url | none => false)

/-- The `update_tunnel(tunnel_id, req)` (lines 159-205) for the literal
source: `KeyError` when the id is absent (line 164, before any mutation);
otherwise apply the partial update, clear `subdomain` when the label or
service URL changed, persist (line 187), stop any running process (lines
190-196, the terminated handle staying registered), clear the session
flags (lines 199-200) — and then `await _spawn(cfg)` (line 201) raises
`AttributeError` (see `spawn_attempt`): the function never returns a
config, never records a new handle and never starts a poller; the
exception propagates after the store write and the flag clearing.  The
`.ok` branch transcribes lines 202-205, which this program cannot
reach. -/
def update_tunnel (tunnel_id : String) (req : UpdateTunnelRequest)
    (st : MgrState) :
    Except MgrErr TunnelConfig × MgrState × List PollerStart :=
  match st.store.lookup tunnel_id with
  | none => (.error .notFound, st, [])
  | some cfg0 =>
      let cfg1 := applyUpdate req cfg0
      let cfg := if labelOrUrlChanged req cfg0 then
                   { cfg1 with subdomain := none } else cfg1
      let st1 := { st with store := dictSet st.store tunnel_id cfg }
      let st2 := terminateInRegistry st1 tunnel_id
      let st3 := { st2 with
        connected := setDiscard st2.connected tunnel_id
        userStopped := setDiscard st2.userStopped tunnel_id }
      match spawn_attempt cfg with
      | .error e => (.error e, st3, [])
      | .ok proc =>
          (.ok cfg,
           { st3 with procs := dictSet st3.procs tunnel_id proc },
           [⟨cfg.id, cfg.service_url, cfg.label⟩])

/-- The `remove_tunnel(tunnel_id)` (lines 208-220): marks the tunnel
user-stopped, clears connected, pops and stops the handle, and deletes the
persisted record.  The source raises nothing — an absent id is a silent
success (`tunnels.pop(tunnel_id, None)`). -/
def remove_tunnel (tunnel_id : String) (st : MgrState) :
    Except MgrErr Unit × MgrState :=
  let st1 := { st with
    connected := setDiscard st.connected tunnel_id
    userStopped := setAdd st.userStopped tunnel_id }
  -- `_processes.pop(tunnel_id, None)` followed by terminate-and-wait
  let st2 := { st1 with procs := dictPop st1.procs tunnel_id }
  let st3 := { st2 with store := dictPop st2.store tunnel_id }
  (.ok (), st3)

/-- The `start_tunnel(tunnel_id)` (lines 223-232) for the literal source:
`KeyError` when the id is absent (line 227, before any mutation); no-op
when a handle is already running; otherwise the session flags are cleared
(lines 229-230) and then `await _spawn(cfg)` (line 231) raises
`AttributeError` (see `spawn_attempt`) before the handle assignment and
the poller.  The `.ok` branch transcribes lines 231-232, which this
program cannot reach. -/
def start_tunnel (tunnel_id : String) (st : MgrState) :
    Except MgrErr Unit × MgrState × List PollerStart :=
  match st.store.lookup tunnel_id with
  | none => (.error .notFound, st, [])
  | some cfg =>
      if is_running (st.procs.lookup tunnel_id) then (.ok (), st, [])
      else
        let st1 := { st with
          connected := setDiscard st.connected tunnel_id
          userStopped := setDiscard st.userStopped tunnel_id }
        match spawn_attempt cfg with
        | .error e => (.error e, st1, [])
        | .ok proc =>
            (.ok (),
             { st1 with procs := dictSet st1.procs tunnel_id proc },
             [⟨cfg.id, cfg.service_url, cfg.label⟩])

/-- The `stop_tunnel(tunnel_id)` (lines 235-244): marks user-stopped, clears
connected, terminates a running handle.  No code path raises and the
Config Store is never touched. -/
def stop_tunnel (tunnel_id : String) (st : MgrState) : MgrState :=
  let st1 := { st with
    connected := setDiscard st.connected tunnel_id
    userStopped := setAdd st.userStopped tunnel_id }
  terminateInRegistry st1 tunnel_id

/-- One step of the `restore_all` loop body (lines 109-118) for a single
persisted config: skip when already running; otherwise `_spawn` is
attempted inside `try`, and its exception — in this program always the
`AttributeError` of line 56 — is caught per tunnel and only logged
(lines 117-118), so the step leaves the state unchanged.  The success arm
transcribes lines 114-116, which this program cannot reach. -/
def restoreOne (acc : MgrState × List PollerStart) (cfg : TunnelConfig) :
    MgrState × List PollerStart :=
  let (st, polls) := acc
  if is_running (st.procs.lookup cfg.id) then (st, polls)
  else
    match spawn_attempt cfg with
    | .error _ => (st, polls)   -- `except Exception: print(...)`
    | .ok proc =>
        ({ st with
           procs := dictSet st.procs cfg.id proc
           userStopped := setDiscard st.userStopped cfg.id },
         polls ++ [⟨cfg.id, cfg.service_url, cfg.label⟩])

/-- The `restore_all()` (lines 103-118).  `globalKey` is
`os.environ.get("HLE_API_KEY")`; when it is unset or empty the function
returns immediately, spawning nothing and starting no poller. -/
def restore_all (globalKey : Option String) (st : MgrState) :
    MgrState × List PollerStart :=
  if ¬ truthyOpt globalKey then (st, [])
  else (st.store.map Prod.snd).foldl restoreOne (st, [])

-- ---------------------------------------------------------------------------
-- Persistence (`_load_all` / `_save_all`)
-- ---------------------------------------------------------------------------

/-- A JSON scalar as it appears in a stored tunnel record. -/
inductive JVal where
  | str (s : String)
  | bool (b : Bool)
  | null
  deriving DecidableEq, Repr

/-- JSON encoding of an optional string field. -/
def jOfOpt : Option String → JVal
  | some s => .str s
  | none => .null

/-- Serialised form of `auth_mode`. -/
def authStr : AuthMode → String
  | .sso => "sso"
  | .noAuth => "none"

/-- The `cfg.model_dump()` as written by `_save_all` (line 40): one key per
field declared on `models.py`'s `TunnelConfig`, in declaration order —
exactly the keys of `modelsTunnelConfigFields`.  In particular there is no
`upstream_basic_auth` key, because `models.py` does not declare that
field. -/
def encodeRecord (cfg : TunnelConfig) : List (String × JVal) :=
  [("id", .str cfg.id),
   ("service_url", .str cfg.service_url),
   ("label", .str cfg.label),
   ("name", jOfOpt cfg.name),
   ("auth_mode", .str (authStr cfg.auth_mode)),
   ("verify_ssl", .bool cfg.verify_ssl),
   ("websocket_enabled", .bool cfg.websocket_enabled),
   ("api_key", jOfOpt cfg.api_key),
   ("subdomain", jOfOpt cfg.subdomain)]

/-- Pydantic validation of a required `str` field: present and a string,
else a `ValidationError`. -/
def reqStr (r : List (String × JVal)) (k : String) : Option String :=
  match r.lookup k with
  | some (.str s) => some s
  | _ => none

/-- Pydantic validation of an `Optional[str] = None` field: a missing key
falls back to the default, `null` and strings are accepted. -/
def optStrField (r : List (String × JVal)) (k : String) : Option (Option String) :=
  match r.lookup k with
  | some (.str s) => some (some s)
  | some .null => some none
  | none => some none
  | some (.bool _) => none

/-- Pydantic validation of a `bool` field with a default. -/
def boolField (r : List (String × JVal)) (k : String) (dflt : Bool) : Option Bool :=
  match r.lookup k with
  | some (.bool b) => some b
  | none => some dflt
  | _ => none

/-- Pydantic validation of the `auth_mode` literal field. -/
def authField (r : List (String × JVal)) (k : String) : Option AuthMode :=
  match r.lookup k with
  | some (.str s) =>
      if s = "sso" then some .sso
      else if s = "none" then some .noAuth
      else none
  | none => some .sso
  | some .null => none
  | some (.bool _) => none

/-- The `TunnelConfig(**cfg)` (line 35): pydantic validates the declared
fields and ignores undeclared keys. -/
def decodeRecord (r : List (String × JVal)) : Option TunnelConfig := do
  let id ← reqStr r "id"
  let service_url ← reqStr r "service_url"
  let label ← reqStr r "label"
  let name ← optStrField r "name"
  let auth_mode ← authField r "auth_mode"
  let verify_ssl ← boolField r "verify_ssl" false
  let websocket_enabled ← boolField r "websocket_enabled" true
  let api_key ← optStrField r "api_key"
  let subdomain ← optStrField r "subdomain"
  pure { id, service_url, label, name, auth_mode, verify_ssl,
         websocket_enabled, api_key, subdomain }

/-- The `_save_all(tunnels)` (lines 38-41): serialise every record. -/
def save_all (m : List (String × TunnelConfig)) :
    List (String × List (String × JVal)) :=
  m.map (fun p => (p.1, encodeRecord p.2))

/-- The `_load_all()` (lines 31-35) applied to decoded file contents: validate
every record, a `ValidationError` aborting the whole load. -/
def load_all : List (String × List (String × JVal)) →
    Option (List (String × TunnelConfig))
  | [] => some []
  | (tid, r) :: rest =>
      match decodeRecord r, load_all rest with
      | some cfg, some m => some ((tid, cfg) :: m)
      | _, _ => none

-- ---------------------------------------------------------------------------
-- Relay poller (`_detect_subdomain`)
-- ---------------------------------------------------------------------------

/-- A live registration as returned by the relay
(`hle_api.list_live_tunnels`): a JSON object whose `.get` accesses may all
be absent. -/
structure LiveReg where
  service_url : Option String := none
  service_label : Option String := none
  subdomain : Option String := none
  deriving DecidableEq, Repr

/-- What one iteration of the poller loop observes after its 2-second
sleep: the current `_processes.get(cfg_id)` handle, the relay response
(`.error` = transport failure, swallowed), and the Config Store contents
it would read back if it writes. -/
structure PollTick where
  proc : Option Proc
  relay : Except Unit (List LiveReg)
  store : List (String × TunnelConfig)

/-- The body of `for t in live:` (lines 85-94): a registration matches by
`service_url` or `service_label`; its subdomain is
`t.get("subdomain") or t.get("service_label")` and must be truthy. -/
def matchReg (service_url label : String) (t : LiveReg) : Option String :=
  if t.service_url = some service_url ∨ t.service_label = some label then
    let sd := pyOr t.subdomain t.service_label
    if truthyOpt sd then sd else none
  else none

/-- The store write on confirmation (lines 89-92): re-read the store and
set the subdomain only if the id is still present. -/
def pollerWrite (cfg_id sd : String) (store : List (String × TunnelConfig)) :
    List (String × TunnelConfig) :=
  match store.lookup cfg_id with
  | some cfg => dictSet store cfg_id { cfg with subdomain := some sd }
  | none => store

/-- Outcome of one `_detect_subdomain` run, with the number of ticks
(sleep-then-inspect iterations) consumed.  Only `confirmed` touches any
state: it carries the written store and implies `_connected.add(cfg_id)`;
`aborted` and `exhausted` return without modifying the Config Store or the
session sets. -/
inductive PollOutcome where
  | aborted (ticksUsed : Nat)
  | confirmed (ticksUsed : Nat) (newStore : List (String × TunnelConfig))
      (subdomain : String)
  | exhausted (ticksUsed : Nat)
  deriving Repr

/-- Ticks consumed by an outcome. -/
def PollOutcome.ticks : PollOutcome → Nat
  | .aborted k => k
  | .confirmed k _ _ => k
  | .exhausted k => k

/-- The state writes carried by an outcome: `some` only on confirmation. -/
def PollOutcome.writes : PollOutcome →
    Option (List (String × TunnelConfig) × String)
  | .confirmed _ s sd => some (s, sd)
  | _ => none

/-- The loop of `_detect_subdomain` (lines 77-96), by recursion on the
remaining attempts out of `range(15)`.  `used` counts completed ticks and
`ticks` supplies what each iteration observes. -/
def detectGo (cfg_id service_url label : String) :
    Nat → Nat → (Nat → PollTick) → PollOutcome
  | 0, used, _ => .exhausted used
  | fuel + 1, used, ticks =>
      let t := ticks used
      if ¬ is_running t.proc then .aborted (used + 1)
      else
        match t.relay with
        | .error _ => detectGo cfg_id service_url label fuel (used + 1) ticks
        | .ok live =>
            match live.findSome? (matchReg service_url label) with
            | some sd => .confirmed (used + 1) (pollerWrite cfg_id sd t.store) sd
            | none => detectGo cfg_id service_url label fuel (used + 1) ticks

/-- The `_detect_subdomain(cfg_id, service_url, label)` (lines 74-96): at most
15 attempts at 2-second spacing. -/
def detect_subdomain (cfg_id service_url label : String)
    (ticks : Nat → PollTick) : PollOutcome :=
  detectGo cfg_id service_url label 15 0 ticks

/-- A tick on which the loop takes another iteration without effect: the
process is still running and the relay yielded no usable match (transport
error or no matching truthy subdomain). -/
def tickNoEffect (service_url label : String) (t : PollTick) : Bool :=
  is_running t.proc &&
    (match t.relay with
     | .error _ => true
     | .ok live => (live.findSome? (matchReg service_url label)).isNone)

-- ---------------------------------------------------------------------------
-- Concrete fixtures (used by witnesses and counterexamples)
-- ---------------------------------------------------------------------------

/-- A stored config with no subdomain yet. -/
def cfgA : TunnelConfig :=
  { id := "t1", service_url := "http://localhost:8000", label := "homeassistant" }

/-- A stored config that already has a subdomain. -/
def cfgB : TunnelConfig :=
  { id := "t2", service_url := "http://localhost:9000", label := "media",
    subdomain := some "abc123" }

/-- A state holding only `cfgA`, with no handle for it. -/
def stA : MgrState :=
  { store := [("t1", cfgA)], procs := [], connected := [],
    userStopped := [] }

/-- A state holding `cfgA` and `cfgB`, with a running, relay-confirmed
handle for `"t2"`. -/
def stB : MgrState :=
  { store := [("t1", cfgA), ("t2", cfgB)],
    procs := [("t2", { pid := 3, running := true })],
    connected := ["t2"], userStopped := [] }

/-- A concrete add request. -/
def reqA : AddTunnelRequest :=
  { service_url := "http://localhost:7000", label := "grafana" }

/-- A concrete partial update changing only the label. -/
def reqU : UpdateTunnelRequest :=
  { label := some "media-new" }

/-- A concrete poller tick stream: the process handle is already gone on
every tick, even though the relay reports a matching live registration. -/
def deadTicks : Nat → PollTick := fun _ =>
  { proc := none,
    relay := .ok [{ service_url := some "http://localhost:8000",
                    subdomain := some "abc123" }],
    store := [("t1", cfgA)] }

-- ---------------------------------------------------------------------------
-- Theorems
-- ---------------------------------------------------------------------------

/-- C1: for every tunnel id present in the Config Store, `get_tunnel`
returns a status whose `state` follows the authoritative table as a
function of (process handle running?, user-stopped flag, connected flag):
not running and user-stopped is STOPPED; not running and not user-stopped
is FAILED with the last non-empty log line attached as `error`; running
and connected is CONNECTED; running and not connected is CONNECTING.  The
final conjunct is the purity of the derivation: any state and log oracle
agreeing on the triple yields the same `state`. -/
theorem getTunnel_status_table (lastLog lastLog' : String → Option String)
    (st st' : MgrState) (tid : String) (cfg : TunnelConfig)
    (hmem : st.store.lookup tid = some cfg) :
    ∃ s, get_tunnel lastLog st tid = some s ∧
      (is_running (st.procs.lookup tid) = false →
        st.userStopped.contains tid = true →
        s.state = .STOPPED ∧ s.error = none) ∧
      (is_running (st.procs.lookup tid) = false →
        st.userStopped.contains tid = false →
        s.state = .FAILED ∧ s.error = lastLog tid) ∧
      (is_running (st.procs.lookup tid) = true →
        st.connected.contains tid = true →
        s.state = .CONNECTED ∧ s.error = none) ∧
      (is_running (st.procs.lookup tid) = true →
        st.connected.contains tid = false →
        s.state = .CONNECTING ∧ s.error = none) ∧
      (is_running (st'.procs.lookup tid) = is_running (st.procs.lookup tid) →
        st'.userStopped.contains tid = st.userStopped.contains tid →
        st'.connected.contains tid = st.connected.contains tid →
        (make_status lastLog' st' tid cfg).state = s.state) := by
  refine ⟨make_status lastLog st tid cfg, by simp [get_tunnel, hmem],
    ?_, ?_, ?_, ?_, ?_⟩
  · intro hrun hstop
    simp_all [make_status]
  · intro hrun hstop
    simp_all [make_status]
  · intro hrun hconn
    simp_all [make_status]
  · intro hrun hconn
    simp_all [make_status]
  · intro h1 h2 h3
    rcases hr : is_running (List.lookup tid st.procs) with _ | _ <;>
      rcases hs : st.userStopped.contains tid with _ | _ <;>
        rcases hc : st.connected.contains tid with _ | _ <;>
          rw [hr] at h1 <;> rw [hs] at h2 <;> rw [hc] at h3 <;>
            simp_all [make_status]

/-- Witness for C1: in a concrete state holding `cfgA` with no process
handle and the id not user-stopped, `get_tunnel` reports FAILED with the
log oracle's line attached. -/
theorem getTunnel_status_table_witness :
    ∃ s, get_tunnel (fun _ => some "boom") stA "t1" = some s ∧
      s.state = .FAILED ∧ s.error = some "boom" := by
  obtain ⟨s, hs, _, hrow, _, _, _⟩ :=
    getTunnel_status_table (fun _ => some "boom") (fun _ => none) stA stA
      "t1" cfgA (by rfl)
  exact ⟨s, hs, hrow (by rfl) (by rfl)⟩

/-- The `terminateInRegistry` only touches the process registry. -/
theorem terminateInRegistry_store (st : MgrState) (tid : String) :
    (terminateInRegistry st tid).store = st.store := by
  unfold terminateInRegistry
  rcases List.lookup tid st.procs with _ | p
  · rfl
  · by_cases hp : p.running <;> simp [hp]

/-- The `terminateInRegistry` leaves the connected set unchanged. -/
theorem terminateInRegistry_connected (st : MgrState) (tid : String) :
    (terminateInRegistry st tid).connected = st.connected := by
  unfold terminateInRegistry
  rcases List.lookup tid st.procs with _ | p
  · rfl
  · by_cases hp : p.running <;> simp [hp]

/-- The `terminateInRegistry` leaves the user-stopped set unchanged. -/
theorem terminateInRegistry_userStopped (st : MgrState) (tid : String) :
    (terminateInRegistry st tid).userStopped = st.userStopped := by
  unfold terminateInRegistry
  rcases List.lookup tid st.procs with _ | p
  · rfl
  · by_cases hp : p.running <;> simp [hp]

/-- The `set.add` makes the element a member. -/
theorem setAdd_contains_self (s : List String) (x : String) :
    (setAdd s x).contains x = true := by
  unfold setAdd
  by_cases h : s.contains x <;> simp_all

/-- The `set.discard` removes the element. -/
theorem setDiscard_contains_self (s : List String) (x : String) :
    (setDiscard s x).contains x = false := by
  simp [setDiscard, List.mem_filter]

/-- C10: `stop_tunnel` never fails, for any id including ids absent from
the Config Store: it always adds the id to the user-stopped set, removes
it from the connected set, and leaves the persisted Config Store mapping
unchanged. -/
theorem stopTunnel_total_flags_store (tid : String) (st : MgrState) :
    (stop_tunnel tid st).userStopped.contains tid = true ∧
    (stop_tunnel tid st).connected.contains tid = false ∧
    (stop_tunnel tid st).store = st.store := by
  unfold stop_tunnel
  refine ⟨?_, ?_, ?_⟩
  · rw [terminateInRegistry_userStopped]
    exact setAdd_contains_self _ _
  · rw [terminateInRegistry_connected]
    exact setDiscard_contains_self _ _
  · rw [terminateInRegistry_store]

/-- Looking up the key just written by `dictSet` yields the new value. -/
theorem dictSet_lookup_self (m : List (String × α)) (k : String) (v : α) :
    (dictSet m k v).lookup k = some v := by
  induction m with
  | nil => simp [dictSet, List.lookup]
  | cons hd tl ih =>
      rcases hd with ⟨k', v'⟩
      by_cases h : k' = k
      · subst h
        simp [dictSet, List.lookup]
      · have hb : (k == k') = false := beq_eq_false_iff_ne.mpr (Ne.symm h)
        simp [dictSet, h, List.lookup, hb, ih]

/-- The `dictSet` does not touch other keys. -/
theorem dictSet_lookup_ne (m : List (String × α)) (k k' : String) (v : α)
    (h : k' ≠ k) : (dictSet m k v).lookup k' = m.lookup k' := by
  induction m with
  | nil =>
      have hb : (k' == k) = false := beq_eq_false_iff_ne.mpr h
      simp [dictSet, List.lookup, hb]
  | cons hd tl ih =>
      rcases hd with ⟨k0, v0⟩
      by_cases h0 : k0 = k
      · subst h0
        have hb : (k' == k0) = false := beq_eq_false_iff_ne.mpr h
        simp [dictSet, List.lookup, hb]
      · have hrw : dictSet ((k0, v0) :: tl) k v = (k0, v0) :: dictSet tl k v := by
          simp [dictSet, h0]
        rw [hrw]
        cases hbk : k' == k0 <;> simp [List.lookup, hbk, ih]

/-- Looking up a popped key yields nothing. -/
theorem dictPop_lookup_self (m : List (String × α)) (k : String) :
    (dictPop m k).lookup k = none := by
  induction m with
  | nil => rfl
  | cons hd tl ih =>
      rcases hd with ⟨k0, v0⟩
      by_cases h0 : k0 = k
      · simpa [dictPop, List.filter, h0] using ih
      · have hb : (k == k0) = false := beq_eq_false_iff_ne.mpr (Ne.symm h0)
        simp only [dictPop, List.filter] at ih ⊢
        simp [h0, List.lookup, hb]
        simpa using ih

/-- After `terminateInRegistry`, the registered handle for the id (if
any) is not running. -/
theorem terminateInRegistry_not_running (st : MgrState) (tid : String) :
    is_running ((terminateInRegistry st tid).procs.lookup tid) = false := by
  unfold terminateInRegistry
  rcases h : List.lookup tid st.procs with _ | p
  · simp [h, is_running]
  · by_cases hp : p.running
    · simp [hp, dictSet_lookup_self, is_running, stopProc]
    · simp [hp, h, is_running]

/-- C4 counterexample: the claim asserts that after `remove_tunnel` neither
session set contains the id, but the source adds the id to `_user_stopped`
(line 210) and never removes it, so the user-stopped set does contain it:
removing `"t2"` from the concrete state `stB` leaves `"t2"` user-stopped. -/
theorem removeTunnel_userStopped_retained_cex :
    ¬ ((remove_tunnel "t2" stB).2.userStopped.contains "t2" = false) := by
  decide

/-- C4 (amended): after `remove_tunnel tid` completes, the Process Registry
has no handle for `tid`, the connected set does not contain `tid`, and the
persisted record is deleted; but the id is left in the user-stopped set —
`remove_tunnel` marks it user-stopped (so concurrent observers see STOPPED
rather than FAILED during teardown) and never clears that mark. -/
theorem removeTunnel_clears_all_but_userStopped (tid : String) (st : MgrState) :
    (remove_tunnel tid st).1 = .ok () ∧
    ((remove_tunnel tid st).2.procs.lookup tid) = none ∧
    (remove_tunnel tid st).2.connected.contains tid = false ∧
    ((remove_tunnel tid st).2.store.lookup tid) = none ∧
    (remove_tunnel tid st).2.userStopped.contains tid = true := by
  refine ⟨rfl, ?_, ?_, ?_, ?_⟩
  · exact dictPop_lookup_self _ _
  · exact setDiscard_contains_self _ _
  · exact dictPop_lookup_self _ _
  · exact setAdd_contains_self _ _

/-- C5 counterexample: the claim asserts `remove_tunnel` fails with
`NotFoundError` on an id absent from the Config Store, but the source
raises nothing (`tunnels.pop(tunnel_id, None)`): removing the absent id
`"zz"` from the concrete state `stA` succeeds silently. -/
theorem removeTunnel_absent_ok_cex :
    (remove_tunnel "zz" stA).1 = Except.ok () := by
  rfl

/-- C5 (amended): for an id absent from the Config Store, `update_tunnel`
and `start_tunnel` fail with `NotFoundError` (`KeyError` in the source)
and change nothing; `remove_tunnel`, however, succeeds silently — it is
idempotent on absent ids rather than failing. -/
theorem absentId_update_start_fail_remove_silent (tid : String) (st : MgrState)
    (h : st.store.lookup tid = none) :
    (∀ req, update_tunnel tid req st = (.error .notFound, st, [])) ∧
    start_tunnel tid st = (.error .notFound, st, []) ∧
    (remove_tunnel tid st).1 = .ok () := by
  refine ⟨?_, ?_, rfl⟩
  · intro req
    simp [update_tunnel, h]
  · simp [start_tunnel, h]

/-- Witness for C5 (amended): in the concrete state `stA` the id `"zz"` is
absent, `update_tunnel` and `start_tunnel` fail with `NotFoundError`, and
`remove_tunnel` succeeds. -/
theorem absentId_update_start_fail_remove_silent_witness :
    update_tunnel "zz" {} stA = (.error .notFound, stA, []) ∧
    start_tunnel "zz" stA = (.error .notFound, stA, []) ∧
    (remove_tunnel "zz" stA).1 = .ok () := by
  obtain ⟨h1, h2, h3⟩ :=
    absentId_update_start_fail_remove_silent "zz" stA (by rfl)
  exact ⟨h1 {}, h2, h3⟩

/-- C3: the claim asserts `add_tunnel` persists the new config and returns
it rather than raising even when the spawn fails, with the failure
surfaced through FAILED status.  The literal source cannot exhibit this:
line 149 evaluates `req.upstream_basic_auth`, a field `models.py` does not
declare on `AddTunnelRequest`, so every `add_tunnel` call — launcher good
or bad — raises `AttributeError` before the spawn attempt, before the
store write and before the poller: nothing is ever persisted or returned,
and `get_tunnel` can never observe the new id.  (Even with the field bug
fixed, lines 151-154 wrap `await _spawn(cfg)` in no `try`, so a genuine
launch failure would also propagate before the store write.) -/
theorem addTunnel_always_attributeError (req : AddTunnelRequest)
    (st : MgrState) :
    (add_tunnel req st).1 = .error .attributeError ∧
    (add_tunnel req st).2.1 = st ∧
    (add_tunnel req st).2.2 = [] :=
  ⟨rfl, rfl, rfl⟩

/-- C6: when no global credential is configured (`HLE_API_KEY` unset or
empty), `restore_all` spawns nothing: the whole state — Config Store,
process registry, session flags — is returned unchanged and no poller
task is started. -/
theorem restoreAll_no_key_is_noop (globalKey : Option String)
    (st : MgrState) (h : truthyOpt globalKey = false) :
    restore_all globalKey st = (st, []) := by
  simp [restore_all, h]

/-- Witness for C6: restoring with an unset key on the concrete state `stB`
changes nothing and starts no poller. -/
theorem restoreAll_no_key_is_noop_witness :
    restore_all none stB = (stB, []) :=
  restoreAll_no_key_is_noop none stB (by rfl)

/-- C2: the claim says `update_tunnel` under a changed effective `label`
or `service_url` returns and persists a config with `subdomain` cleared
and respawns so the new handle differs from the old.  What the literal
source does at such an input: it does persist the updated config with the
subdomain cleared (line 187), and it terminates any old process (lines
190-196), but then `await _spawn(cfg)` (line 201) raises `AttributeError`
— `models.py` declares no `upstream_basic_auth` on `TunnelConfig`, read
at line 56 — so the call returns nothing, records no new handle (the id's
registered handle, if any, is the terminated old one) and starts no
poller: the claimed respawn-with-new-handle never happens. -/
theorem updateTunnel_change_persists_clear_but_crashes
    (tid : String) (req : UpdateTunnelRequest) (st : MgrState)
    (cfg0 : TunnelConfig)
    (hcfg : st.store.lookup tid = some cfg0)
    (hchange : (∃ l, req.label = some l ∧ l ≠ cfg0.label) ∨
               (∃ u, req.service_url = some u ∧ u ≠ cfg0.service_url)) :
    (update_tunnel tid req st).1 = .error .attributeError ∧
    (update_tunnel tid req st).2.1.store.lookup tid =
      some { applyUpdate req cfg0 with subdomain := none } ∧
    is_running ((update_tunnel tid req st).2.1.procs.lookup tid) = false ∧
    (update_tunnel tid req st).2.2 = [] := by
  have hch : labelOrUrlChanged req cfg0 = true := by
    rcases hchange with ⟨l, hl, hne⟩ | ⟨u, hu, hne⟩
    · simp [labelOrUrlChanged, hl, hne]
    · simp [labelOrUrlChanged, hu, hne]
  refine ⟨?_, ?_, ?_, ?_⟩
  · simp [update_tunnel, hcfg, hch, spawn_attempt]
  · simp [update_tunnel, hcfg, hch, spawn_attempt, terminateInRegistry_store,
      dictSet_lookup_self]
  · simp [update_tunnel, hcfg, hch, spawn_attempt,
      terminateInRegistry_not_running]
  · simp [update_tunnel, hcfg, hch, spawn_attempt]

/-- Witness for C2: updating the label of the stored, running tunnel
`"t2"` in the concrete state `stB` persists the cleared subdomain, leaves
no running handle for `"t2"`, raises `AttributeError` and starts no
poller. -/
theorem updateTunnel_change_persists_clear_but_crashes_witness :
    (update_tunnel "t2" reqU stB).1 = .error .attributeError ∧
    (update_tunnel "t2" reqU stB).2.1.store.lookup "t2" =
      some { applyUpdate reqU cfgB with subdomain := none } ∧
    is_running ((update_tunnel "t2" reqU stB).2.1.procs.lookup "t2") = false ∧
    (update_tunnel "t2" reqU stB).2.2 = [] :=
  updateTunnel_change_persists_clear_but_crashes "t2" reqU stB cfgB
    (by rfl) (Or.inl ⟨"media-new", rfl, by decide⟩)

/-- Decoding an encoded record succeeds and reproduces the config
exactly. -/
theorem decodeRecord_encodeRecord (c : TunnelConfig) :
    decodeRecord (encodeRecord c) = some c := by
  obtain ⟨id, surl, lab, nm, am, vs, ws, ak, sd⟩ := c
  cases nm <;> cases am <;> cases ak <;> cases sd <;> rfl

/-- The `_load_all` succeeds on anything `_save_all` wrote, reproducing
every record exactly. -/
theorem load_all_save_all (m : List (String × TunnelConfig)) :
    load_all (save_all m) = some m := by
  induction m with
  | nil => rfl
  | cons hd tl ih =>
      rcases hd with ⟨tid, c⟩
      have hsave : save_all ((tid, c) :: tl) = (tid, encodeRecord c) :: save_all tl := by
        simp [save_all]
      rw [hsave]
      simp only [load_all]
      rw [decodeRecord_encodeRecord, ih]

/-- C8: `saveAll(loadAll())` is a no-op on the stored representation: for
any stored mapping (an image of `_save_all`, which is the only writer of
the file), loading it back and saving again reproduces exactly the same
records, field sets and field values. -/
theorem saveAll_loadAll_noop (m : List (String × TunnelConfig)) :
    (load_all (save_all m)).map save_all = some (save_all m) := by
  rw [load_all_save_all]
  rfl

/-- One loop iteration whose tick observes a dead or missing handle
aborts immediately. -/
theorem detectGo_step_dead (cfg_id surl lab : String) (f used : Nat)
    (ticks : Nat → PollTick)
    (hdead : is_running (ticks used).proc = false) :
    detectGo cfg_id surl lab (f + 1) used ticks = .aborted (used + 1) := by
  simp [detectGo, hdead]

/-- One loop iteration whose tick has the process alive but no usable
relay match (transport error or no matching truthy subdomain) recurses on
the remaining attempts. -/
theorem detectGo_step_noEffect (cfg_id surl lab : String) (f used : Nat)
    (ticks : Nat → PollTick)
    (h : tickNoEffect surl lab (ticks used) = true) :
    detectGo cfg_id surl lab (f + 1) used ticks =
      detectGo cfg_id surl lab f (used + 1) ticks := by
  rw [tickNoEffect, Bool.and_eq_true] at h
  obtain ⟨hrun, hrest⟩ := h
  rcases hrel : (ticks used).relay with e | live
  · simp [detectGo, hrun, hrel]
  · rw [hrel] at hrest
    simp only [Option.isNone_iff_eq_none] at hrest
    simp [detectGo, hrun, hrel, hrest]

/-- One loop iteration whose tick has the process alive and a usable relay
match confirms and stops. -/
theorem detectGo_step_confirm (cfg_id surl lab : String) (f used : Nat)
    (ticks : Nat → PollTick) (live : List LiveReg) (sd : String)
    (hrun : is_running (ticks used).proc = true)
    (hrel : (ticks used).relay = .ok live)
    (hfind : live.findSome? (matchReg surl lab) = some sd) :
    detectGo cfg_id surl lab (f + 1) used ticks =
      .confirmed (used + 1) (pollerWrite cfg_id sd (ticks used).store) sd := by
  simp [detectGo, hrun, hrel, hfind]

/-- The `detectGo` consumes at most `used + fuel` ticks. -/
theorem detectGo_ticks_le (cfg_id surl lab : String) :
    ∀ (fuel used : Nat) (ticks : Nat → PollTick),
      (detectGo cfg_id surl lab fuel used ticks).ticks ≤ used + fuel := by
  intro fuel
  induction fuel with
  | zero =>
      intro used ticks
      simp [detectGo, PollOutcome.ticks]
  | succ f ih =>
      intro used ticks
      cases hrun : is_running (ticks used).proc with
      | false =>
          rw [detectGo_step_dead cfg_id surl lab f used ticks hrun]
          simp only [PollOutcome.ticks]
          omega
      | true =>
          rcases hrel : (ticks used).relay with e | live
          · rw [detectGo_step_noEffect cfg_id surl lab f used ticks
              (by simp [tickNoEffect, hrun, hrel])]
            exact le_trans (ih (used + 1) ticks) (by omega)
          · rcases hfind : live.findSome? (matchReg surl lab) with _ | sd
            · rw [detectGo_step_noEffect cfg_id surl lab f used ticks
                (by simp [tickNoEffect, hrun, hrel, hfind])]
              exact le_trans (ih (used + 1) ticks) (by omega)
            · rw [detectGo_step_confirm cfg_id surl lab f used ticks live sd
                hrun hrel hfind]
              simp only [PollOutcome.ticks]
              omega

/-- If `k` effect-free ticks (process alive, no usable relay match) are
followed by a tick whose process handle is missing or exited, the loop
aborts on that tick. -/
theorem detectGo_dead_abort (cfg_id surl lab : String) :
    ∀ (k fuel used : Nat) (ticks : Nat → PollTick),
      k < fuel →
      (∀ i, used ≤ i → i < used + k → tickNoEffect surl lab (ticks i) = true) →
      is_running (ticks (used + k)).proc = false →
      detectGo cfg_id surl lab fuel used ticks = .aborted (used + k + 1) := by
  intro k
  induction k with
  | zero =>
      intro fuel used ticks hk hpre hdead
      obtain ⟨f, rfl⟩ : ∃ f, fuel = f + 1 := ⟨fuel - 1, by omega⟩
      rw [Nat.add_zero] at hdead
      rw [detectGo_step_dead cfg_id surl lab f used ticks hdead]
  | succ k ih =>
      intro fuel used ticks hk hpre hdead
      obtain ⟨f, rfl⟩ : ∃ f, fuel = f + 1 := ⟨fuel - 1, by omega⟩
      have h0 : tickNoEffect surl lab (ticks used) = true :=
        hpre used (le_refl _) (by omega)
      rw [detectGo_step_noEffect cfg_id surl lab f used ticks h0]
      have hnext :
          detectGo cfg_id surl lab f (used + 1) ticks =
            .aborted (used + 1 + k + 1) := by
        refine ih f (used + 1) ticks (by omega) ?_ ?_
        · intro i h1 h2
          exact hpre i (by omega) (by omega)
        · rw [show used + 1 + k = used + (k + 1) from by omega]
          exact hdead
      rw [hnext]
      exact congrArg PollOutcome.aborted (by omega)

/-- C7: the poller `_detect_subdomain` always terminates after at most 15
polling attempts; and on any tick where the tunnel's current process
handle is missing or no longer running — all earlier ticks having passed
without a usable confirmation — it returns `aborted`, carrying no Config
Store write and no session-state change, so a late-arriving confirmation
causes no state change.  (The 2-second spacing is real time and is
represented only by the tick abstraction.) -/
theorem detectSubdomain_bounded_and_abort_on_dead (cfg_id surl lab : String) :
    (∀ ticks, (detect_subdomain cfg_id surl lab ticks).ticks ≤ 15) ∧
    (∀ ticks k, k < 15 →
      (∀ i, i < k → tickNoEffect surl lab (ticks i) = true) →
      is_running (ticks k).proc = false →
      detect_subdomain cfg_id surl lab ticks = .aborted (k + 1) ∧
      (detect_subdomain cfg_id surl lab ticks).writes = none) := by
  constructor
  · intro ticks
    simpa using detectGo_ticks_le cfg_id surl lab 15 0 ticks
  · intro ticks k hk hpre hdead
    have h := detectGo_dead_abort cfg_id surl lab k 15 0 ticks hk
      (fun i _ h2 => hpre i (by omega)) (by simpa using hdead)
    rw [Nat.zero_add] at h
    exact ⟨h, by rw [detect_subdomain, h]; rfl⟩

/-- Witness for C7: with a tick stream whose first observation already has
no process handle (even though the relay would report a match), the poller
consumes one tick, aborts and writes nothing. -/
theorem detectSubdomain_bounded_and_abort_on_dead_witness :
    (detect_subdomain "t1" "http://localhost:8000" "homeassistant"
        deadTicks).ticks ≤ 15 ∧
    detect_subdomain "t1" "http://localhost:8000" "homeassistant"
        deadTicks = .aborted 1 := by
  obtain ⟨h1, h2⟩ :=
    detectSubdomain_bounded_and_abort_on_dead "t1" "http://localhost:8000"
      "homeassistant"
  refine ⟨h1 deadTicks, ?_⟩
  exact (h2 deadTicks 0 (by omega)
    (fun i hi => absurd hi (Nat.not_lt_zero i)) (by rfl)).1

/-- C9: `models.py` declares no `upstream_basic_auth` field on
`TunnelConfig` (its literal field list is `modelsTunnelConfigFields`),
although `tunnel_manager.py` dereferences `cfg.upstream_basic_auth` (line
56) and `req.upstream_basic_auth` (line 149), so every `_spawn` call
raises `AttributeError` and `add_tunnel` crashes on every request.  The
intended argv layout of lines 51-57 — base command from `service_url`,
`label` and `auth_mode`, flags for `verify_ssl`/`websocket_enabled`, and
`--upstream-basic-auth` with the credential appended exactly when the
credential is set — is shown by the two concrete evaluations of
`spawnCmd`, which takes the would-be credential as an explicit
parameter. -/
theorem upstreamBasicAuth_missing_from_models :
    ("upstream_basic_auth" ∈ modelsTunnelConfigFields) = false ∧
    spawn_attempt cfgA = .error .attributeError ∧
    spawnCmd cfgA (some "user:pw") =
      ["hle", "expose", "--service", "http://localhost:8000",
       "--label", "homeassistant", "--auth", "sso",
       "--upstream-basic-auth", "user:pw"] ∧
    spawnCmd cfgA none =
      ["hle", "expose", "--service", "http://localhost:8000",
       "--label", "homeassistant", "--auth", "sso"] := by
  refine ⟨by decide, rfl, rfl, rfl⟩

end HaAddon
